import Mathlib

/-!
Verification development for the ODESI browse-data scraper
(`src/odesi_scraper.py`).  The Python code is shallowly embedded:

* JSON / Python values are the inductive `PyVal`; `dict.get`, `in`,
  iteration and truthiness are modelled exactly as CPython behaves on
  them, with raised exceptions embedded as `Except.error`.
* `parse_category_data`, `scrape_all_categories`, `find_duplicates` and
  `export_to_excel` are translated function-by-function from the source;
  pandas dataframes become lists of `Row`s, the workbook becomes a list
  of named `Sheet`s, and the blocking sleeps / HTTP requests of the
  aggregator become an explicit event trace.
-/

/-- A Python/JSON value as produced by `response.json()`. -/
inductive PyVal : Type where
  | none : PyVal
  | bool : Bool → PyVal
  | int : Int → PyVal
  | str : String → PyVal
  | list : List PyVal → PyVal
  | dict : List (String × PyVal) → PyVal

/-- Python truthiness (`not data` in the source is `pyFalsy data`). -/
def pyFalsy : PyVal → Bool
  | .none => true
  | .bool b => !b
  | .int n => n == 0
  | .str s => s.isEmpty
  | .list xs => xs.isEmpty
  | .dict fs => fs.isEmpty

/-- Contiguous-sublist test, used for Python substring containment. -/
def subSeq {α : Type} [BEq α] (needle : List α) : List α → Bool
  | [] => needle.isEmpty
  | a :: t => List.isPrefixOf needle (a :: t) || subSeq needle t

/-- Python `k in v` for a string key `k`: key membership on dicts,
element equality on lists (a `str` needle equals only `str` elements),
substring test on strings, `TypeError` otherwise. -/
def pyContains (v : PyVal) (k : String) : Except String Bool :=
  match v with
  | .dict fields => .ok (fields.any (fun p => k == p.1))
  | .list xs => .ok (xs.any (fun x => match x with | .str s => k == s | _ => false))
  | .str s => .ok (subSeq k.data s.data)
  | _ => .error "TypeError"

/-- Python `v.get(k, d)`: defaulting key lookup on dicts,
`AttributeError` on anything that is not a dict. -/
def pyGet (v : PyVal) (k : String) (d : PyVal) : Except String PyVal :=
  match v with
  | .dict fields => .ok ((fields.lookup k).getD d)
  | _ => .error "AttributeError"

/-- Python `for x in v`: elements of a list, keys of a dict,
single-character strings of a string, `TypeError` otherwise. -/
def pyIter (v : PyVal) : Except String (List PyVal) :=
  match v with
  | .list xs => .ok xs
  | .dict fields => .ok (fields.map (fun p => PyVal.str p.1))
  | .str s => .ok (s.data.map (fun c => PyVal.str (String.mk [c])))
  | _ => .error "TypeError"

/-- One flattened survey record, the dict built at lines 120-126 of the
source; field order is the dict-key insertion order. -/
structure PRecord : Type where
  Category : String
  Series_Name : PyVal
  Year : PyVal
  Survey_Title : PyVal
  URI : PyVal

/-- Error-propagating map over a list, modelling a Python `for` loop
whose body may raise; the first raise aborts the whole loop. -/
def mapExcept {α β : Type} (f : α → Except String β) : List α → Except String (List β)
  | [] => .ok []
  | x :: xs => do
    let y ← f x
    let ys ← mapExcept f xs
    .ok (y :: ys)

/-- Error-propagating concatenating map, modelling a Python `for` loop
whose body extends an accumulator list. -/
def exListMap {α β : Type} (f : α → Except String (List β)) : List α → Except String (List β)
  | [] => .ok []
  | x :: xs => do
    let r ← f x
    let rest ← exListMap f xs
    .ok (r ++ rest)

/-- Body of the innermost loop of `parse_category_data`
(lines 119-127): build one record from a survey entry. -/
def parse_survey (category : String) (series_name year : PyVal) (survey : PyVal) :
    Except String PRecord := do
  let title ← pyGet survey "title" (.str "")
  let uri ← pyGet survey "uri" (.str "")
  .ok { Category := category, Series_Name := series_name, Year := year,
        Survey_Title := title, URI := uri }

/-- Body of the middle loop of `parse_category_data` (lines 115-127):
one year entry of a series. -/
def parse_year (category : String) (series_name : PyVal) (year_data : PyVal) :
    Except String (List PRecord) := do
  let year ← pyGet year_data "year" (.str "Unknown")
  let surveysVal ← pyGet year_data "item" (.list [])
  let surveys ← pyIter surveysVal
  mapExcept (parse_survey category series_name year) surveys

/-- Body of the outer loop of `parse_category_data` (lines 111-127):
one series entry. -/
def parse_series (category : String) (series_item : PyVal) :
    Except String (List PRecord) := do
  let series_name ← pyGet series_item "series" (.str "Unknown")
  let yearsVal ← pyGet series_item "years" (.list [])
  let years ← pyIter yearsVal
  exListMap (parse_year category series_name) years

/-- `ODESIScraper.parse_category_data` (lines 84-130 of the source).
A raised Python exception is `Except.error`. -/
def parse_category_data (category : String) (data : PyVal) :
    Except String (List PRecord) :=
  if pyFalsy data then .ok []
  else do
    let hasContent ← pyContains data "content"
    if !hasContent then .ok []
    else do
      let content ← pyGet data "content" (.dict [])
      let datasets ← pyGet content "datasets" (.dict [])
      match datasets with
      | .dict dfields => do
        let items ← pyGet (.dict dfields) "items" (.list [])
        let seriesItems ← pyIter items
        exListMap (parse_series category) seriesItems
      | _ => .ok []

/-- The degenerate inputs named by the spec: an empty mapping, a mapping
without a `content` key, or a mapping whose `content.datasets` value is
not a mapping. -/
def degenerate_input (data : PyVal) : Prop :=
  data = .dict [] ∨
  (∃ fields, data = .dict fields ∧ fields.lookup "content" = Option.none) ∨
  (∃ fields cfields v, data = .dict fields ∧
    fields.lookup "content" = some (.dict cfields) ∧
    cfields.lookup "datasets" = some v ∧ ∀ dfields, v ≠ PyVal.dict dfields)

@[simp] lemma exc_bind_ok {α β : Type} (a : α) (f : α → Except String β) :
    (Except.ok a >>= f : Except String β) = f a := rfl

@[simp] lemma exc_bind_error {α β : Type} (e : String) (f : α → Except String β) :
    (Except.error e >>= f : Except String β) = Except.error e := rfl

lemma lookup_none_any_false (k : String) :
    ∀ (l : List (String × PyVal)), l.lookup k = Option.none →
      l.any (fun p => k == p.1) = false := by
  intro l
  induction l with
  | nil => intro _; rfl
  | cons a l ih =>
    intro h
    simp only [List.lookup] at h
    cases hk : (k == a.1) with
    | true => rw [hk] at h; exact absurd h (by simp)
    | false =>
      rw [hk] at h
      simp only [List.any_cons, hk, Bool.false_or]
      exact ih h

lemma lookup_some_any_true (k : String) (v : PyVal) :
    ∀ (l : List (String × PyVal)), l.lookup k = some v →
      l.any (fun p => k == p.1) = true := by
  intro l
  induction l with
  | nil => intro h; exact absurd h (by simp [List.lookup])
  | cons a l ih =>
    intro h
    simp only [List.lookup] at h
    cases hk : (k == a.1) with
    | true => simp [List.any_cons, hk]
    | false =>
      rw [hk] at h
      simp only [List.any_cons, hk, Bool.false_or]
      exact ih h

/-- C1: the parser returns an empty record list, without raising, on the
spec's degenerate inputs: an empty mapping, a mapping missing `content`,
and a wrong-typed (non-mapping) `datasets` value. -/
theorem parse_category_data_degenerate (category : String) (data : PyVal)
    (h : degenerate_input data) :
    parse_category_data category data = .ok [] := by
  rcases h with h | ⟨fields, hd, hnone⟩ | ⟨fields, cfields, v, hd, hc, hds, hv⟩
  · subst h; rfl
  · subst hd
    cases fields with
    | nil => rfl
    | cons a l =>
      have hany := lookup_none_any_false "content" (a :: l) hnone
      simp [parse_category_data, pyFalsy, pyContains, hany]
  · subst hd
    cases fields with
    | nil => simp [List.lookup] at hc
    | cons a l =>
      have hany := lookup_some_any_true "content" (.dict cfields) (a :: l) hc
      cases v with
      | dict dfields => exact absurd rfl (hv dfields)
      | none => simp [parse_category_data, pyFalsy, pyContains, hany, pyGet, hc, hds]
      | bool b => simp [parse_category_data, pyFalsy, pyContains, hany, pyGet, hc, hds]
      | int n => simp [parse_category_data, pyFalsy, pyContains, hany, pyGet, hc, hds]
      | str s => simp [parse_category_data, pyFalsy, pyContains, hany, pyGet, hc, hds]
      | list xs => simp [parse_category_data, pyFalsy, pyContains, hany, pyGet, hc, hds]

/-- Witness for C1: a concrete degenerate input (a string-valued
`datasets`, as the upstream returns for an empty category) parses to the
empty record list. -/
theorem parse_category_data_degenerate_witness :
    degenerate_input (.dict [("content", .dict [("datasets", .str "none found")])]) ∧
      parse_category_data "Agriculture"
        (.dict [("content", .dict [("datasets", .str "none found")])]) = .ok [] := by
  refine ⟨Or.inr (Or.inr ⟨_, _, _, rfl, rfl, rfl, ?_⟩), ?_⟩
  · intro dfields h; cases h
  · exact parse_category_data_degenerate _ _
      (Or.inr (Or.inr ⟨_, _, _, rfl, rfl, rfl, fun dfields h => by cases h⟩))

/-- Counterexample for C1: the parser is not exception-free on every
JSON input.  When the top-level `content` value is a string, the call
`content.get('datasets', ...)` raises `AttributeError`, because only the
`datasets` value — not the `content` value — is type-checked. -/
theorem parse_category_data_raises_on_str_content :
    parse_category_data "Health" (.dict [("content", .str "x")]) =
      .error "AttributeError" := by rfl

/-- A leaf survey entry of a well-shaped API response; `Option.none`
models an absent JSON key. -/
structure SurveyItem : Type where
  title : Option String
  uri : Option String

/-- A year entry of a well-shaped API response. -/
structure YearData : Type where
  year : Option String
  item : List SurveyItem

/-- A series entry of a well-shaped API response. -/
structure SeriesItem : Type where
  series : Option String
  years : List YearData

/-- An optional JSON object field: present iff the option is `some`. -/
def optStrField (k : String) (v : Option String) : List (String × PyVal) :=
  match v with
  | Option.none => []
  | some s => [(k, .str s)]

/-- JSON encoding of a leaf survey entry. -/
def encodeSurvey (sv : SurveyItem) : PyVal :=
  .dict (optStrField "title" sv.title ++ optStrField "uri" sv.uri)

/-- JSON encoding of a year entry. -/
def encodeYear (yd : YearData) : PyVal :=
  .dict (optStrField "year" yd.year ++ [("item", .list (yd.item.map encodeSurvey))])

/-- JSON encoding of a series entry. -/
def encodeSeries (si : SeriesItem) : PyVal :=
  .dict (optStrField "series" si.series ++ [("years", .list (si.years.map encodeYear))])

/-- JSON encoding of a full well-shaped API response:
`content → datasets → items → [series] → years → [year] → item → [survey]`. -/
def encodeResponse (items : List SeriesItem) : PyVal :=
  .dict [("content", .dict [("datasets", .dict [("items", .list (items.map encodeSeries))])])]

/-- The record list the spec promises for a well-shaped response
(stated from the spec's words, to be compared with the embedded parser):
one record per leaf survey, `Category` everywhere, `Series_Name`/`Year`
threaded from the enclosing levels with default `"Unknown"`, title and
URI defaulting to `""`. -/
def spec_expected_records (category : String) (items : List SeriesItem) : List PRecord :=
  items.flatMap (fun si =>
    si.years.flatMap (fun yd =>
      yd.item.map (fun sv =>
        { Category := category,
          Series_Name := .str (si.series.getD "Unknown"),
          Year := .str (yd.year.getD "Unknown"),
          Survey_Title := .str (sv.title.getD ""),
          URI := .str (sv.uri.getD "") })))

lemma mapExcept_encode_ok {α β γ : Type} (f : β → Except String γ) (enc : α → β)
    (g : α → γ) (h : ∀ x, f (enc x) = .ok (g x)) :
    ∀ l : List α, mapExcept f (l.map enc) = .ok (l.map g) := by
  intro l
  induction l with
  | nil => rfl
  | cons x xs ih => simp [mapExcept, h x, ih]

lemma exListMap_encode_ok {α β γ : Type} (f : β → Except String (List γ)) (enc : α → β)
    (g : α → List γ) (h : ∀ x, f (enc x) = .ok (g x)) :
    ∀ l : List α, exListMap f (l.map enc) = .ok (l.flatMap g) := by
  intro l
  induction l with
  | nil => rfl
  | cons x xs ih => simp [exListMap, h x, ih]

lemma parse_survey_encode (category : String) (sn y : PyVal) (sv : SurveyItem) :
    parse_survey category sn y (encodeSurvey sv) =
      .ok { Category := category, Series_Name := sn, Year := y,
            Survey_Title := .str (sv.title.getD ""), URI := .str (sv.uri.getD "") } := by
  cases sv with
  | mk t u => cases t <;> cases u <;> rfl

lemma parse_year_encode (category : String) (sn : PyVal) (yd : YearData) :
    parse_year category sn (encodeYear yd) =
      .ok (yd.item.map (fun sv =>
        { Category := category, Series_Name := sn,
          Year := .str (yd.year.getD "Unknown"),
          Survey_Title := .str (sv.title.getD ""), URI := .str (sv.uri.getD "") })) := by
  cases yd with
  | mk y its =>
    cases y with
    | none =>
      simp only [parse_year, encodeYear, optStrField, List.nil_append, pyGet,
        List.lookup, Option.getD, pyIter, exc_bind_ok]
      exact mapExcept_encode_ok _ _ _ (fun sv => parse_survey_encode category sn _ sv) its
    | some ystr =>
      simp only [parse_year, encodeYear, optStrField, List.cons_append, List.nil_append,
        pyGet, List.lookup, Option.getD, pyIter, exc_bind_ok]
      exact mapExcept_encode_ok _ _ _ (fun sv => parse_survey_encode category sn _ sv) its

lemma parse_series_encode (category : String) (si : SeriesItem) :
    parse_series category (encodeSeries si) =
      .ok (si.years.flatMap (fun yd =>
        yd.item.map (fun sv =>
          { Category := category,
            Series_Name := PyVal.str (si.series.getD "Unknown"),
            Year := .str (yd.year.getD "Unknown"),
            Survey_Title := .str (sv.title.getD ""), URI := .str (sv.uri.getD "") }))) := by
  cases si with
  | mk s yrs =>
    cases s with
    | none =>
      simp only [parse_series, encodeSeries, optStrField, List.nil_append, pyGet,
        List.lookup, Option.getD, pyIter, exc_bind_ok]
      exact exListMap_encode_ok _ _ _ (fun yd => parse_year_encode category _ yd) yrs
    | some sstr =>
      simp only [parse_series, encodeSeries, optStrField, List.cons_append, List.nil_append,
        pyGet, List.lookup, Option.getD, pyIter, exc_bind_ok]
      exact exListMap_encode_ok _ _ _ (fun yd => parse_year_encode category _ yd) yrs

/-- C2: on every well-shaped API response, the parser returns exactly
one record per leaf survey item: the given category on every record,
series name and year threaded from the enclosing levels (default
`"Unknown"` when the key is absent), and title/URI defaulting to the
empty string when absent. -/
theorem parse_category_data_shaped (category : String) (items : List SeriesItem) :
    parse_category_data category (encodeResponse items) =
      .ok (spec_expected_records category items) := by
  simp only [parse_category_data, encodeResponse, pyFalsy, List.isEmpty_cons,
    Bool.false_eq_true, if_false, pyContains, List.any_cons, List.any_nil,
    beq_self_eq_true, Bool.true_or, Bool.or_false, exc_bind_ok, Bool.not_true,
    if_false, pyGet, List.lookup, Option.getD, beq_self_eq_true, pyIter,
    spec_expected_records]
  exact exListMap_encode_ok _ _ _ (fun si => parse_series_encode category si) items

/-- One row of the scraper's pandas dataframe.  The first five fields
are the columns built by the parser; `Title_Normalized` models the
column that `find_duplicates` adds (`Option.none` = column absent). -/
structure Row : Type where
  Category : String
  Series_Name : String
  Year : String
  Survey_Title : String
  URI : String
  Title_Normalized : Option String
deriving DecidableEq

/-- Python `str.strip` whitespace set (space, tab, LF, CR, VT, FF). -/
def pyIsSpace (c : Char) : Bool :=
  c == ' ' || c == '\t' || c == '\n' || c == '\r' || c == '\x0b' || c == '\x0c'

/-- Python `str.strip()` on a character list. -/
def pyStrip (l : List Char) : List Char :=
  ((l.dropWhile pyIsSpace).reverse.dropWhile pyIsSpace).reverse

/-- The normalized title of line 180 of the source:
`title.lower().strip()` (lowercasing, then trimming whitespace). -/
def normalizeTitle (s : String) : String :=
  String.mk (pyStrip (s.data.map Char.toLower))

/-- The duplicate key named by the spec: (lowercased whitespace-trimmed
title, series, year). -/
def dupKey (r : Row) : String × String × String :=
  (normalizeTitle r.Survey_Title, r.Series_Name, r.Year)

/-- The column triple that `df.duplicated` compares:
`['Title_Normalized', 'Series_Name', 'Year']`. -/
def pandasDupKey (r : Row) : Option String × String × String :=
  (r.Title_Normalized, r.Series_Name, r.Year)

/-- The `sort_values(['Series_Name', 'Year', 'Survey_Title'])` key,
compared as Python compares strings: code point by code point. -/
def rowKey (r : Row) : List Char × List Char × List Char :=
  (r.Series_Name.data, r.Year.data, r.Survey_Title.data)

/-- Lexicographic `≤` on the three-component sort key. -/
def keyLe (a b : List Char × List Char × List Char) : Prop :=
  a.1 < b.1 ∨ (a.1 = b.1 ∧ (a.2.1 < b.2.1 ∨ (a.2.1 = b.2.1 ∧ a.2.2 ≤ b.2.2)))

instance keyLe_decidable (a b : List Char × List Char × List Char) :
    Decidable (keyLe a b) := by unfold keyLe; infer_instance

/-- Row comparison used by the `sort_values` call. -/
def rowLe (a b : Row) : Bool := decide (keyLe (rowKey a) (rowKey b))

lemma keyLe_trans {a b c : List Char × List Char × List Char}
    (h1 : keyLe a b) (h2 : keyLe b c) : keyLe a c := by
  obtain ⟨a1, a2, a3⟩ := a
  obtain ⟨b1, b2, b3⟩ := b
  obtain ⟨c1, c2, c3⟩ := c
  simp only [keyLe] at h1 h2 ⊢
  rcases h1 with h1 | ⟨e1, h1⟩
  · rcases h2 with h2 | ⟨e2, h2⟩
    · exact Or.inl (lt_trans h1 h2)
    · exact Or.inl (lt_of_lt_of_le h1 (le_of_eq e2))
  · rcases h2 with h2 | ⟨e2, h2⟩
    · exact Or.inl (lt_of_le_of_lt (le_of_eq e1) h2)
    · refine Or.inr ⟨e1.trans e2, ?_⟩
      rcases h1 with h1 | ⟨f1, h1⟩
      · rcases h2 with h2 | ⟨f2, h2⟩
        · exact Or.inl (lt_trans h1 h2)
        · exact Or.inl (lt_of_lt_of_le h1 (le_of_eq f2))
      · rcases h2 with h2 | ⟨f2, h2⟩
        · exact Or.inl (lt_of_le_of_lt (le_of_eq f1) h2)
        · exact Or.inr ⟨f1.trans f2, le_trans h1 h2⟩

lemma keyLe_total (a b : List Char × List Char × List Char) :
    keyLe a b ∨ keyLe b a := by
  obtain ⟨a1, a2, a3⟩ := a
  obtain ⟨b1, b2, b3⟩ := b
  simp only [keyLe]
  rcases lt_trichotomy a1 b1 with h | h | h
  · exact Or.inl (Or.inl h)
  · rcases lt_trichotomy a2 b2 with h' | h' | h'
    · exact Or.inl (Or.inr ⟨h, Or.inl h'⟩)
    · rcases le_total a3 b3 with h'' | h''
      · exact Or.inl (Or.inr ⟨h, Or.inr ⟨h', h''⟩⟩)
      · exact Or.inr (Or.inr ⟨h.symm, Or.inr ⟨h'.symm, h''⟩⟩)
    · exact Or.inr (Or.inr ⟨h.symm, Or.inl h'⟩)
  · exact Or.inr (Or.inl h)

lemma rowLe_trans (a b c : Row) (h1 : rowLe a b = true) (h2 : rowLe b c = true) :
    rowLe a c = true := by
  simp only [rowLe, decide_eq_true_iff] at h1 h2 ⊢
  exact keyLe_trans h1 h2

lemma rowLe_total (a b : Row) : (rowLe a b || rowLe b a) = true := by
  simp only [rowLe, Bool.or_eq_true, decide_eq_true_iff]
  exact keyLe_total _ _

/-- The column assignment of line 180:
`df['Title_Normalized'] = df['Survey_Title'].str.lower().str.strip()`. -/
def addNormalized (r : Row) : Row :=
  { r with Title_Normalized := some (normalizeTitle r.Survey_Title) }

/-- The `drop(columns=['Title_Normalized'])` of line 187. -/
def dropNormalized (r : Row) : Row := { r with Title_Normalized := Option.none }

/-- `ODESIScraper.find_duplicates` (lines 166-187 of the source),
returned together with its side effect: the first component is the
caller's dataframe as the call leaves it (the normalized-title column
assignment mutates it in place), the second is the returned dataframe.
`duplicated(subset, keep=False)` marks every row whose key triple
occurs at least twice. -/
def find_duplicates_full (df : List Row) : List Row × List Row :=
  if df.isEmpty then (df, [])
  else
    let marked := df.map addNormalized
    let dups := marked.filter (fun r =>
      2 ≤ marked.countP (fun s => decide (pandasDupKey s = pandasDupKey r)))
    (marked, (dups.mergeSort rowLe).map dropNormalized)

/-- The dataframe `find_duplicates` returns. -/
def find_duplicates (df : List Row) : List Row := (find_duplicates_full df).2

lemma pandasDupKey_addNormalized (s r : Row) :
    (pandasDupKey (addNormalized s) = pandasDupKey (addNormalized r)) ↔
      (dupKey s = dupKey r) := by
  simp only [pandasDupKey, addNormalized, dupKey, Prod.mk.injEq, Option.some_inj]

lemma rowKey_dropNormalized (r : Row) : rowKey (dropNormalized r) = rowKey r := rfl

lemma dropNormalized_addNormalized (r : Row) (h : r.Title_Normalized = Option.none) :
    dropNormalized (addNormalized r) = r := by
  cases r
  simp only [dropNormalized, addNormalized] at h ⊢
  simp_all

/-- C3: on a dataframe whose rows do not yet carry the internal
normalized-title column, `find_duplicates` returns a permutation of
exactly those rows whose (lowercased whitespace-trimmed title,
series, year) triple occurs at least twice — every member of every such
group — and the result is sorted by (Series_Name, Year, original
Survey_Title). -/
theorem find_duplicates_spec (df : List Row)
    (h : ∀ r ∈ df, r.Title_Normalized = Option.none) :
    (find_duplicates df).Perm
        (df.filter (fun r => 2 ≤ df.countP (fun s => decide (dupKey s = dupKey r)))) ∧
      (find_duplicates df).Pairwise (fun a b => rowLe a b = true) := by
  cases df with
  | nil => exact ⟨List.Perm.refl _, List.Pairwise.nil⟩
  | cons r0 rest =>
    set df := r0 :: rest with hdf
    have hne : df.isEmpty = false := rfl
    have hfd : find_duplicates df =
        (((df.map addNormalized).filter (fun r =>
            2 ≤ (df.map addNormalized).countP
              (fun s => decide (pandasDupKey s = pandasDupKey r)))).mergeSort rowLe).map
          dropNormalized := by
      simp only [find_duplicates, find_duplicates_full, hne, Bool.false_eq_true, if_false]
    have hcount : ∀ r : Row,
        (df.map addNormalized).countP
            (fun s => decide (pandasDupKey s = pandasDupKey (addNormalized r))) =
          df.countP (fun s => decide (dupKey s = dupKey r)) := by
      intro r
      rw [List.countP_map]
      apply List.countP_congr
      intro s _
      simp only [Function.comp_apply, decide_eq_true_iff]
      exact pandasDupKey_addNormalized s r
    have hfilter : (df.map addNormalized).filter (fun r =>
          2 ≤ (df.map addNormalized).countP
            (fun s => decide (pandasDupKey s = pandasDupKey r))) =
        (df.filter (fun r =>
          2 ≤ df.countP (fun s => decide (dupKey s = dupKey r)))).map addNormalized := by
      rw [List.filter_map]
      congr 1
      apply List.filter_congr
      intro r _
      simp only [Function.comp_apply, hcount r]
    constructor
    · rw [hfd, hfilter]
      refine List.Perm.trans (List.Perm.map _ (List.mergeSort_perm _ _)) ?_
      rw [List.map_map]
      have : ∀ r ∈ df.filter (fun r =>
          2 ≤ df.countP (fun s => decide (dupKey s = dupKey r))),
          (dropNormalized ∘ addNormalized) r = r := by
        intro r hr
        exact dropNormalized_addNormalized r (h r (List.mem_of_mem_filter hr))
      rw [List.map_congr_left this]
      simp
    · rw [hfd]
      refine List.Pairwise.map dropNormalized ?_
        (List.sorted_mergeSort rowLe_trans rowLe_total _)
      intro a b hab
      simpa only [rowLe, rowKey_dropNormalized] using hab

/-- Witness for C3: two records whose titles differ only in case and
surrounding whitespace but share series and year are both returned. -/
theorem find_duplicates_spec_witness :
    (∀ r ∈ [Row.mk "Health" "LFS" "2001" "Labour Survey 2001" "u1" Option.none,
            Row.mk "Health" "LFS" "2001" " labour survey 2001 " "u2" Option.none],
        r.Title_Normalized = Option.none) ∧
      ((find_duplicates
            [Row.mk "Health" "LFS" "2001" "Labour Survey 2001" "u1" Option.none,
             Row.mk "Health" "LFS" "2001" " labour survey 2001 " "u2" Option.none]).Perm
          ([Row.mk "Health" "LFS" "2001" "Labour Survey 2001" "u1" Option.none,
            Row.mk "Health" "LFS" "2001" " labour survey 2001 " "u2" Option.none].filter
            (fun r => 2 ≤ [Row.mk "Health" "LFS" "2001" "Labour Survey 2001" "u1" Option.none,
              Row.mk "Health" "LFS" "2001" " labour survey 2001 " "u2" Option.none].countP
                (fun s => decide (dupKey s = dupKey r)))) ∧
        (find_duplicates
            [Row.mk "Health" "LFS" "2001" "Labour Survey 2001" "u1" Option.none,
             Row.mk "Health" "LFS" "2001" " labour survey 2001 " "u2" Option.none]).Pairwise
          (fun a b => rowLe a b = true)) :=
  ⟨by decide, find_duplicates_spec _ (by decide)⟩

/-- The five externally visible columns of a row. -/
def visibleFields (r : Row) : String × String × String × String × String :=
  (r.Category, r.Series_Name, r.Year, r.Survey_Title, r.URI)

/-- C8 (amended): `find_duplicates` never exposes the normalized-title
column in the rows it returns, and the five original columns of the
input dataframe are untouched — but the input dataframe itself is not
unchanged: see the counterexample for the added column. -/
theorem find_duplicates_frame (df : List Row) :
    ((find_duplicates_full df).1.map visibleFields = df.map visibleFields ∧
      (find_duplicates_full df).2.all (fun r => r.Title_Normalized.isNone) = true) := by
  cases hdf : df.isEmpty with
  | true =>
    have : df = [] := by cases df with | nil => rfl | cons a l => cases hdf
    subst this
    exact ⟨rfl, rfl⟩
  | false =>
    constructor
    · simp only [find_duplicates_full, hdf, Bool.false_eq_true, if_false, List.map_map]
      rfl
    · simp only [find_duplicates_full, hdf, Bool.false_eq_true, if_false, List.all_eq_true]
      intro r hr
      rcases List.mem_map.mp hr with ⟨s, _, rfl⟩
      rfl

/-- An observable side effect of `scrape_all_categories`: one HTTP GET
for a category, or one `time.sleep(self.delay)` pause. -/
inductive Ev : Type where
  | fetch : String → Ev
  | sleep : Ev
deriving DecidableEq

/-- `ODESIScraper.scrape_all_categories` (lines 132-164 of the source),
over a fetch oracle `f` giving the JSON each category's GET returns.
The result carries the ordered trace of fetches and delay pauses next to
the concatenated records; the loop sleeps after a category exactly when
`i < len(categories)`, i.e. when it is not the last one. -/
def scrape_all_categories (f : String → PyVal) :
    List String → Except String (List Ev × List PRecord)
  | [] => .ok ([], [])
  | c :: rest => do
    let recs ← parse_category_data c (f c)
    match rest with
    | [] => .ok ([Ev.fetch c], recs)
    | _ :: _ => do
      let p ← scrape_all_categories f rest
      .ok (Ev.fetch c :: Ev.sleep :: p.1, recs ++ p.2)

lemma scrape_all_categories_cons_cons (f : String → PyVal) (c c' : String)
    (rest : List String) :
    scrape_all_categories f (c :: c' :: rest) =
      parse_category_data c (f c) >>= fun recs =>
        scrape_all_categories f (c' :: rest) >>= fun p =>
          Except.ok (Ev.fetch c :: Ev.sleep :: p.1, recs ++ p.2) := rfl

lemma scrape_all_categories_spec (f : String → PyVal) (g : String → List PRecord) :
    ∀ cats : List String, (∀ c ∈ cats, parse_category_data c (f c) = .ok (g c)) →
      scrape_all_categories f cats =
        .ok (List.intersperse Ev.sleep (cats.map Ev.fetch), cats.flatMap g) := by
  intro cats
  induction cats with
  | nil => intro _; rfl
  | cons c rest ih =>
    intro h
    have hc : parse_category_data c (f c) = .ok (g c) := h c (List.mem_cons_self c rest)
    cases rest with
    | nil =>
      simp [scrape_all_categories, hc]
    | cons c' rest' =>
      have hrest := ih (fun x hx => h x (List.mem_cons_of_mem c hx))
      rw [scrape_all_categories_cons_cons, hc, exc_bind_ok, hrest, exc_bind_ok]
      simp [List.intersperse_cons_cons]

lemma countP_intersperse_sleep :
    ∀ l : List Ev, (List.intersperse Ev.sleep l).countP (fun e => e == Ev.sleep) =
      l.countP (fun e => e == Ev.sleep) + (l.length - 1) := by
  intro l
  induction l with
  | nil => rfl
  | cons a t ih =>
    cases t with
    | nil => simp [List.intersperse]
    | cons b t' =>
      rw [List.intersperse_cons_cons]
      simp only [List.countP_cons, List.length_cons] at ih ⊢
      simp [ih]
      omega

/-- C4: when every fetched category parses successfully, the aggregator
issues exactly one fetch per category, in list order, and sleeps exactly
`n - 1` times, each sleep strictly between two consecutive fetches —
never before the first fetch and never after the last (the trace is the
fetch list with a sleep interspersed between consecutive elements). -/
theorem scrape_all_categories_trace (f : String → PyVal) (g : String → List PRecord)
    (cats : List String)
    (h : ∀ c ∈ cats, parse_category_data c (f c) = .ok (g c)) :
    ∃ recs, scrape_all_categories f cats =
        .ok (List.intersperse Ev.sleep (cats.map Ev.fetch), recs) ∧
      (List.intersperse Ev.sleep (cats.map Ev.fetch)).countP
          (fun e => e matches Ev.fetch _) = cats.length ∧
      (List.intersperse Ev.sleep (cats.map Ev.fetch)).countP
          (fun e => e == Ev.sleep) = cats.length - 1 := by
  refine ⟨cats.flatMap g, scrape_all_categories_spec f g cats h, ?_, ?_⟩
  · have h1 : ∀ l : List Ev, (List.intersperse Ev.sleep l).countP (fun e => e matches Ev.fetch _) =
        l.countP (fun e => e matches Ev.fetch _) := by
      intro l
      induction l with
      | nil => rfl
      | cons a t ih =>
        cases t with
        | nil => rfl
        | cons b t' =>
          rw [List.intersperse_cons_cons]
          simp only [List.countP_cons] at ih ⊢
          rw [ih]
          rfl
    rw [h1, List.countP_map]
    have : ∀ c : String, ((fun e => e matches Ev.fetch _) ∘ Ev.fetch) c = true := fun _ => rfl
    calc cats.countP ((fun e => e matches Ev.fetch _) ∘ Ev.fetch)
        = cats.countP (fun _ => true) := List.countP_congr (fun c _ => by simp [this c])
      _ = cats.length := by simp
  · rw [countP_intersperse_sleep, List.countP_map, List.length_map]
    have : cats.countP ((fun e => e == Ev.sleep) ∘ Ev.fetch) = 0 := by
      rw [List.countP_eq_zero]
      intro c _
      simp [Function.comp]
    rw [this]
    omega

/-- Witness for C4: two categories whose responses parse to no records
give the trace fetch-sleep-fetch. -/
theorem scrape_all_categories_trace_witness :
    (∀ c ∈ ["Agriculture", "Health"],
        parse_category_data c ((fun _ => PyVal.dict []) c) = .ok ((fun _ => []) c)) ∧
      ∃ recs, scrape_all_categories (fun _ => PyVal.dict []) ["Agriculture", "Health"] =
          .ok (List.intersperse Ev.sleep (["Agriculture", "Health"].map Ev.fetch), recs) ∧
        (List.intersperse Ev.sleep (["Agriculture", "Health"].map Ev.fetch)).countP
            (fun e => e matches Ev.fetch _) = (["Agriculture", "Health"] : List String).length ∧
        (List.intersperse Ev.sleep (["Agriculture", "Health"].map Ev.fetch)).countP
            (fun e => e == Ev.sleep) = (["Agriculture", "Health"] : List String).length - 1 :=
  ⟨fun _ _ => rfl, scrape_all_categories_trace (fun _ => PyVal.dict [])
    (fun _ => []) ["Agriculture", "Health"] (fun _ _ => rfl)⟩

/-- C5: when every fetched category parses successfully, the dataset the
aggregator returns is the concatenation of the per-category record
lists, in the given category order, nothing removed and nothing
reordered. -/
theorem scrape_all_categories_records (f : String → PyVal) (g : String → List PRecord)
    (cats : List String)
    (h : ∀ c ∈ cats, parse_category_data c (f c) = .ok (g c)) :
    ∃ tr, scrape_all_categories f cats = .ok (tr, cats.flatMap g) :=
  ⟨_, scrape_all_categories_spec f g cats h⟩

/-- Witness for C5: a two-category scrape returns the two parsed record
lists concatenated in order. -/
theorem scrape_all_categories_records_witness :
    (∀ c ∈ ["Health", "Trade"],
        parse_category_data c
            ((fun _ => encodeResponse [SeriesItem.mk (some "LFS") [YearData.mk (some "2001")
              [SurveyItem.mk (some "t") (some "u")]]]) c) =
          .ok ((fun c => spec_expected_records c [SeriesItem.mk (some "LFS")
            [YearData.mk (some "2001") [SurveyItem.mk (some "t") (some "u")]]]) c)) ∧
      ∃ tr, scrape_all_categories
          (fun _ => encodeResponse [SeriesItem.mk (some "LFS") [YearData.mk (some "2001")
            [SurveyItem.mk (some "t") (some "u")]]]) ["Health", "Trade"] =
        .ok (tr, (["Health", "Trade"] : List String).flatMap
          (fun c => spec_expected_records c [SeriesItem.mk (some "LFS")
            [YearData.mk (some "2001") [SurveyItem.mk (some "t") (some "u")]]])) :=
  ⟨fun c _ => parse_category_data_shaped c _,
   scrape_all_categories_records _ _ _ (fun c _ => parse_category_data_shaped c _)⟩

/-- The outcome of one `session.get` call: a transport-level failure
(connection error or timeout, i.e. a `requests` exception), or a
response with an HTTP status code and a JSON body. -/
inductive NetOutcome : Type where
  | netError : NetOutcome
  | response : Nat → PyVal → NetOutcome

/-- `ODESIScraper.fetch_category_data` (lines 63-82 of the source) over
the outcome of its single GET.  `attempts` counts `session.get` calls
(the body has exactly one, in the `try`, with no retry loop);
`raise_for_status` raises for 4xx/5xx statuses, and every
`RequestException` is caught and turned into an empty dict. -/
def fetch_category_data (o : NetOutcome) : Nat × PyVal :=
  match o with
  | .netError => (1, .dict [])
  | .response status body =>
    if 400 ≤ status ∧ status < 600 then (1, .dict []) else (1, body)

/-- C6: a fetch makes exactly one request attempt (no retries), returns
the empty mapping on a transport error or a 4xx/5xx status rather than
propagating the error, and returns the parsed JSON body on success. -/
theorem fetch_category_data_spec (o : NetOutcome) :
    (fetch_category_data o).1 = 1 ∧
      ((o = NetOutcome.netError ∨
          ∃ status body, o = NetOutcome.response status body ∧ 400 ≤ status ∧ status < 600) →
        (fetch_category_data o).2 = .dict []) ∧
      (∀ status body, o = NetOutcome.response status body → ¬(400 ≤ status ∧ status < 600) →
        (fetch_category_data o).2 = body) := by
  refine ⟨?_, ?_, ?_⟩
  · cases o with
    | netError => rfl
    | response status body =>
      simp only [fetch_category_data]
      split <;> rfl
  · rintro (rfl | ⟨status, body, rfl, hs⟩)
    · rfl
    · simp [fetch_category_data, hs]
  · rintro status body rfl hs
    simp [fetch_category_data, hs]

/-- Witness for C6: a 404 response yields the empty dict in one attempt,
and a 200 response yields its body. -/
theorem fetch_category_data_spec_witness :
    (fetch_category_data (NetOutcome.response 404 (.str "irrelevant"))).1 = 1 ∧
      (fetch_category_data (NetOutcome.response 404 (.str "irrelevant"))).2 = .dict [] ∧
      (fetch_category_data (NetOutcome.response 200 (.str "body"))).2 = .str "body" :=
  ⟨(fetch_category_data_spec (NetOutcome.response 404 (.str "irrelevant"))).1,
   (fetch_category_data_spec (NetOutcome.response 404 (.str "irrelevant"))).2.1
     (Or.inr ⟨404, .str "irrelevant", rfl, by decide, by decide⟩),
   (fetch_category_data_spec (NetOutcome.response 200 (.str "body"))).2.2 200 (.str "body")
     rfl (by decide)⟩

/-- One sheet of the output workbook: a header row and data rows, all
cells rendered as strings. -/
structure Sheet : Type where
  header : List String
  rows : List (List String)
deriving DecidableEq

/-- The columns of the `All_Data` sheet, in the dict insertion order of
the parser's records. -/
def allDataHeader : List String :=
  ["Category", "Series_Name", "Year", "Survey_Title", "URI"]

/-- One row of the `All_Data` (or duplicates) sheet. -/
def rowCells (r : Row) : List String :=
  [r.Category, r.Series_Name, r.Year, r.Survey_Title, r.URI]

/-- pandas string `min`: Python `≤`, i.e. code-point lexicographic. -/
def strMin (a b : String) : String := if a.data ≤ b.data then a else b

/-- pandas string `max` under code-point lexicographic order. -/
def strMax (a b : String) : String := if a.data ≤ b.data then b else a

/-- Minimum of a (nonempty) string column, as `groupby(...).agg('min')`
computes it; `""` on an empty column (never hit: groups are nonempty). -/
def strListMin : List String → String
  | [] => ""
  | x :: xs => xs.foldl strMin x

/-- Maximum of a (nonempty) string column. -/
def strListMax : List String → String
  | [] => ""
  | x :: xs => xs.foldl strMax x

/-- Code-point comparison of category names, the `groupby` key order. -/
def strLeB (a b : String) : Bool := decide (a.data ≤ b.data)

/-- Code-point lexicographic comparison of (category, series) keys. -/
def pairLeB (a b : String × String) : Bool :=
  decide (a.1.data < b.1.data ∨ (a.1.data = b.1.data ∧ a.2.data ≤ b.2.data))

/-- The rows of `df.groupby('Category')`: distinct categories in sorted
key order. -/
def catKeys (ds : List Row) : List String :=
  ((ds.map Row.Category).dedup).mergeSort strLeB

/-- The rows of `df.groupby(['Category', 'Series_Name'])`: distinct key
pairs in sorted key order. -/
def seriesKeys (ds : List Row) : List (String × String) :=
  ((ds.map (fun r => (r.Category, r.Series_Name))).dedup).mergeSort pairLeB

/-- All rows of one (category, series) group. -/
def groupRows (ds : List Row) (c s : String) : List Row :=
  ds.filter (fun r => r.Category == c && r.Series_Name == s)

/-- The `Category_Summary` sheet (lines 205-212): per category, the
number of distinct series and the total survey count; the index column
is written first. -/
def categorySummarySheet (ds : List Row) : Sheet :=
  ⟨["Category", "Unique_Series", "Total_Surveys"],
   (catKeys ds).map (fun c =>
     [c, toString ((ds.filter (fun r => r.Category == c)).map Row.Series_Name).dedup.length,
      toString (ds.filter (fun r => r.Category == c)).length])⟩

/-- The data rows of the `Series_Summary` sheet (lines 215-220): per
(category, series) key, the survey count and the min and max year
label. -/
def series_summary_rows (ds : List Row) : List (List String) :=
  (seriesKeys ds).map (fun k =>
    [k.1, k.2, toString (groupRows ds k.1 k.2).length,
     strListMin ((groupRows ds k.1 k.2).map Row.Year),
     strListMax ((groupRows ds k.1 k.2).map Row.Year)])

/-- The `Series_Summary` sheet with its flattened column header. -/
def seriesSummarySheet (ds : List Row) : Sheet :=
  ⟨["Category", "Series_Name", "Survey_Count", "First_Year", "Last_Year"],
   series_summary_rows ds⟩

/-- `ODESIScraper.export_to_excel` (lines 189-228 of the source) as the
list of named sheets written to the workbook, in writing order: the
summary sheets only when the dataframe is nonempty, the duplicates
sheet only when `find_duplicates` returns a nonempty dataframe. -/
def export_to_excel (ds : List Row) : List (String × Sheet) :=
  [("All_Data", ⟨allDataHeader, ds.map rowCells⟩)] ++
    (if ds.isEmpty then [] else
      [("Category_Summary", categorySummarySheet ds),
       ("Series_Summary", seriesSummarySheet ds)] ++
        (if (find_duplicates ds).isEmpty then []
         else [("Potential_Duplicates",
                ⟨allDataHeader, (find_duplicates ds).map rowCells⟩)]))

/-- C7: on an empty dataset the workbook holds only the `All_Data`
sheet, with its header row and no data rows; and in general the
`Potential_Duplicates` sheet is present exactly when the duplicate
detector returns at least one record. -/
theorem export_to_excel_empty_and_dup_sheet (ds : List Row) :
    (ds = [] → export_to_excel ds = [("All_Data", ⟨allDataHeader, []⟩)]) ∧
      (("Potential_Duplicates" ∈ (export_to_excel ds).map Prod.fst) ↔
        find_duplicates ds ≠ []) := by
  cases ds with
  | nil =>
    refine ⟨fun _ => rfl, ?_⟩
    constructor
    · intro hmem
      exact absurd hmem (by decide)
    · intro hne
      exact absurd rfl hne
  | cons r rest =>
    refine ⟨fun h => List.noConfusion h, ?_⟩
    have hne : (r :: rest).isEmpty = false := rfl
    cases hdup : (find_duplicates (r :: rest)).isEmpty with
    | true =>
      have hnil : find_duplicates (r :: rest) = [] := List.isEmpty_iff.mp hdup
      simp [export_to_excel, hne, hdup, hnil]
    | false =>
      have hnil : find_duplicates (r :: rest) ≠ [] := by
        intro h
        rw [h] at hdup
        cases hdup
      simp [export_to_excel, hne, hdup, hnil]

/-- Witness for C7: the empty dataset gives the one-sheet workbook and
no duplicates sheet. -/
theorem export_to_excel_empty_witness :
    export_to_excel [] = [("All_Data", ⟨allDataHeader, []⟩)] ∧
      (("Potential_Duplicates" ∈ (export_to_excel ([] : List Row)).map Prod.fst) ↔
        find_duplicates ([] : List Row) ≠ []) :=
  ⟨(export_to_excel_empty_and_dup_sheet []).1 rfl,
   (export_to_excel_empty_and_dup_sheet []).2⟩

/-- C10: on a nonempty dataset the first sheet of the workbook is
`All_Data`, its column headers are exactly Category, Series_Name, Year,
Survey_Title, URI in that order, and it holds one row per record in
dataset order. -/
theorem export_to_excel_all_data (ds : List Row) (_h : ds ≠ []) :
    (export_to_excel ds).head? =
        some ("All_Data",
          ⟨["Category", "Series_Name", "Year", "Survey_Title", "URI"], ds.map rowCells⟩) ∧
      (ds.map rowCells).length = ds.length :=
  ⟨rfl, List.length_map ds rowCells⟩

/-- Witness for C10: a one-record dataset. -/
theorem export_to_excel_all_data_witness :
    (export_to_excel [Row.mk "Health" "LFS" "2001" "t" "u" Option.none]).head? =
        some ("All_Data",
          ⟨["Category", "Series_Name", "Year", "Survey_Title", "URI"],
           [Row.mk "Health" "LFS" "2001" "t" "u" Option.none].map rowCells⟩) ∧
      ([Row.mk "Health" "LFS" "2001" "t" "u" Option.none].map rowCells).length =
        [Row.mk "Health" "LFS" "2001" "t" "u" Option.none].length :=
  export_to_excel_all_data [Row.mk "Health" "LFS" "2001" "t" "u" Option.none]
    (by decide)

lemma strMin_cases (a b : String) : strMin a b = a ∨ strMin a b = b := by
  unfold strMin
  split
  · exact Or.inl rfl
  · exact Or.inr rfl

lemma strMin_le_left (a b : String) : (strMin a b).data ≤ a.data := by
  unfold strMin
  split
  · exact le_refl _
  · exact le_of_lt (lt_of_not_le (by assumption))

lemma strMin_le_right (a b : String) : (strMin a b).data ≤ b.data := by
  unfold strMin
  split
  · assumption
  · exact le_refl _

lemma strMax_cases (a b : String) : strMax a b = a ∨ strMax a b = b := by
  unfold strMax
  split
  · exact Or.inr rfl
  · exact Or.inl rfl

lemma strMax_ge_left (a b : String) : a.data ≤ (strMax a b).data := by
  unfold strMax
  split
  · assumption
  · exact le_refl _

lemma strMax_ge_right (a b : String) : b.data ≤ (strMax a b).data := by
  unfold strMax
  split
  · exact le_refl _
  · exact le_of_lt (lt_of_not_le (by assumption))

lemma foldl_strMin_spec :
    ∀ (xs : List String) (a : String),
      xs.foldl strMin a ∈ a :: xs ∧ (xs.foldl strMin a).data ≤ a.data ∧
        ∀ y ∈ xs, (xs.foldl strMin a).data ≤ y.data := by
  intro xs
  induction xs with
  | nil => exact fun a => ⟨List.mem_singleton.mpr rfl, le_refl _, fun y hy => absurd hy (by simp)⟩
  | cons x xs ih =>
    intro a
    obtain ⟨hmem, hle, hall⟩ := ih (strMin a x)
    have hfold : (x :: xs).foldl strMin a = xs.foldl strMin (strMin a x) := rfl
    refine ⟨?_, ?_, ?_⟩
    · rw [hfold]
      rcases List.mem_cons.mp hmem with h | h
    -- the fold result is `strMin a x` itself or a later element
      · rcases strMin_cases a x with hax | hax
        · exact List.mem_cons.mpr (Or.inl (h.trans hax))
        · exact List.mem_cons.mpr (Or.inr (List.mem_cons.mpr (Or.inl (h.trans hax))))
      · exact List.mem_cons.mpr (Or.inr (List.mem_cons.mpr (Or.inr h)))
    · rw [hfold]
      exact le_trans hle (strMin_le_left a x)
    · rw [hfold]
      intro y hy
      rcases List.mem_cons.mp hy with h | h
      · subst h
        exact le_trans hle (strMin_le_right a y)
      · exact hall y h

lemma foldl_strMax_spec :
    ∀ (xs : List String) (a : String),
      xs.foldl strMax a ∈ a :: xs ∧ a.data ≤ (xs.foldl strMax a).data ∧
        ∀ y ∈ xs, y.data ≤ (xs.foldl strMax a).data := by
  intro xs
  induction xs with
  | nil => exact fun a => ⟨List.mem_singleton.mpr rfl, le_refl _, fun y hy => absurd hy (by simp)⟩
  | cons x xs ih =>
    intro a
    obtain ⟨hmem, hle, hall⟩ := ih (strMax a x)
    have hfold : (x :: xs).foldl strMax a = xs.foldl strMax (strMax a x) := rfl
    refine ⟨?_, ?_, ?_⟩
    · rw [hfold]
      rcases List.mem_cons.mp hmem with h | h
      · rcases strMax_cases a x with hax | hax
        · exact List.mem_cons.mpr (Or.inl (h.trans hax))
        · exact List.mem_cons.mpr (Or.inr (List.mem_cons.mpr (Or.inl (h.trans hax))))
      · exact List.mem_cons.mpr (Or.inr (List.mem_cons.mpr (Or.inr h)))
    · rw [hfold]
      exact le_trans (strMax_ge_left a x) hle
    · rw [hfold]
      intro y hy
      rcases List.mem_cons.mp hy with h | h
      · subst h
        exact le_trans (strMax_ge_right a y) hle
      · exact hall y h

lemma strListMin_spec (l : List String) (h : l ≠ []) :
    strListMin l ∈ l ∧ ∀ y ∈ l, (strListMin l).data ≤ y.data := by
  cases l with
  | nil => exact absurd rfl h
  | cons x xs =>
    obtain ⟨hmem, hle, hall⟩ := foldl_strMin_spec xs x
    refine ⟨hmem, ?_⟩
    intro y hy
    rcases List.mem_cons.mp hy with hxy | hxy
    · exact hxy ▸ hle
    · exact hall y hxy

lemma strListMax_spec (l : List String) (h : l ≠ []) :
    strListMax l ∈ l ∧ ∀ y ∈ l, y.data ≤ (strListMax l).data := by
  cases l with
  | nil => exact absurd rfl h
  | cons x xs =>
    obtain ⟨hmem, hle, hall⟩ := foldl_strMax_spec xs x
    refine ⟨hmem, ?_⟩
    intro y hy
    rcases List.mem_cons.mp hy with hxy | hxy
    · exact hxy ▸ hle
    · exact hall y hxy

lemma mem_groupRows {ds : List Row} {c s : String} {r : Row}
    (hr : r ∈ ds) (hc : r.Category = c) (hs : r.Series_Name = s) :
    r ∈ groupRows ds c s :=
  List.mem_filter.mpr ⟨hr, by simp [hc, hs]⟩

/-- C9: for every (category, series) group present in a nonempty
dataset, the workbook's `Series_Summary` sheet contains a row carrying
that key, the group's survey count, and the minimum and maximum `Year`
label — min and max taken in code-point lexicographic string order. -/
theorem export_series_summary (ds : List Row) (c s : String)
    (h : ∃ r ∈ ds, r.Category = c ∧ r.Series_Name = s) :
    ("Series_Summary", seriesSummarySheet ds) ∈ export_to_excel ds ∧
      ∃ ymin ymax,
        [c, s, toString (groupRows ds c s).length, ymin, ymax] ∈
            (seriesSummarySheet ds).rows ∧
          ymin ∈ (groupRows ds c s).map Row.Year ∧
          (∀ y ∈ (groupRows ds c s).map Row.Year, ymin.data ≤ y.data) ∧
          ymax ∈ (groupRows ds c s).map Row.Year ∧
          (∀ y ∈ (groupRows ds c s).map Row.Year, y.data ≤ ymax.data) := by
  obtain ⟨r, hr, hc, hs⟩ := h
  have hne : ds.isEmpty = false := by
    cases ds with
    | nil => cases hr
    | cons a l => rfl
  have hrg : r ∈ groupRows ds c s := mem_groupRows hr hc hs
  have hgne : (groupRows ds c s).map Row.Year ≠ [] := by
    intro hempty
    rw [List.map_eq_nil_iff] at hempty
    rw [hempty] at hrg
    cases hrg
  constructor
  · simp [export_to_excel, hne]
  · refine ⟨strListMin ((groupRows ds c s).map Row.Year),
      strListMax ((groupRows ds c s).map Row.Year), ?_, ?_, ?_, ?_, ?_⟩
    · have hkey : (c, s) ∈ seriesKeys ds := by
        unfold seriesKeys
        rw [List.mem_mergeSort, List.mem_dedup]
        exact List.mem_map.mpr ⟨r, hr, by rw [hc, hs]⟩
      exact List.mem_map.mpr ⟨(c, s), hkey, rfl⟩
    · exact (strListMin_spec _ hgne).1
    · exact (strListMin_spec _ hgne).2
    · exact (strListMax_spec _ hgne).1
    · exact (strListMax_spec _ hgne).2

/-- Witness for C9: a two-row group with unpadded numeric-looking year
labels; its summary row carries count 2 and the lexicographic min and
max. -/
theorem export_series_summary_witness :
    (∃ r ∈ [Row.mk "Health" "LFS" "9" "t1" "u1" Option.none,
            Row.mk "Health" "LFS" "10" "t2" "u2" Option.none],
        r.Category = "Health" ∧ r.Series_Name = "LFS") ∧
      (("Series_Summary",
          seriesSummarySheet [Row.mk "Health" "LFS" "9" "t1" "u1" Option.none,
            Row.mk "Health" "LFS" "10" "t2" "u2" Option.none]) ∈
          export_to_excel [Row.mk "Health" "LFS" "9" "t1" "u1" Option.none,
            Row.mk "Health" "LFS" "10" "t2" "u2" Option.none] ∧
        ∃ ymin ymax,
          ["Health", "LFS",
              toString (groupRows [Row.mk "Health" "LFS" "9" "t1" "u1" Option.none,
                Row.mk "Health" "LFS" "10" "t2" "u2" Option.none] "Health" "LFS").length,
              ymin, ymax] ∈
              (seriesSummarySheet [Row.mk "Health" "LFS" "9" "t1" "u1" Option.none,
                Row.mk "Health" "LFS" "10" "t2" "u2" Option.none]).rows ∧
            ymin ∈ ((groupRows [Row.mk "Health" "LFS" "9" "t1" "u1" Option.none,
              Row.mk "Health" "LFS" "10" "t2" "u2" Option.none] "Health" "LFS").map Row.Year) ∧
            (∀ y ∈ ((groupRows [Row.mk "Health" "LFS" "9" "t1" "u1" Option.none,
              Row.mk "Health" "LFS" "10" "t2" "u2" Option.none] "Health" "LFS").map Row.Year),
              ymin.data ≤ y.data) ∧
            ymax ∈ ((groupRows [Row.mk "Health" "LFS" "9" "t1" "u1" Option.none,
              Row.mk "Health" "LFS" "10" "t2" "u2" Option.none] "Health" "LFS").map Row.Year) ∧
            (∀ y ∈ ((groupRows [Row.mk "Health" "LFS" "9" "t1" "u1" Option.none,
              Row.mk "Health" "LFS" "10" "t2" "u2" Option.none] "Health" "LFS").map Row.Year),
              y.data ≤ ymax.data)) :=
  ⟨⟨Row.mk "Health" "LFS" "9" "t1" "u1" Option.none, by simp, rfl, rfl⟩,
   export_series_summary _ "Health" "LFS"
     ⟨Row.mk "Health" "LFS" "9" "t1" "u1" Option.none, by simp, rfl, rfl⟩⟩

/-- Counterexample for C8: the normalized-title column is not transient.
After `find_duplicates` returns, the caller's dataframe still carries
the `Title_Normalized` column added at line 180 — it is dropped only
from the returned duplicates, so the input dataset's records are
changed. -/
theorem find_duplicates_mutates_input :
    (find_duplicates_full
        [Row.mk "Health" "LFS" "2001" "Labour Survey 2001" "u1" Option.none]).1 ≠
        [Row.mk "Health" "LFS" "2001" "Labour Survey 2001" "u1" Option.none] ∧
      (find_duplicates_full
          [Row.mk "Health" "LFS" "2001" "Labour Survey 2001" "u1" Option.none]).1.map
          Row.Title_Normalized = [some "labour survey 2001"] := by decide
